import Mathlib

/-!
Verification of the log-ingestion and anomaly-detection pipeline of the
CVNP2646 coursework repository.

The development shallowly embeds the two log-analysis scripts:
* `Week 4/log_analyzer.py` — the positional firewall-log parser
  (`parse_log_file`);
* `Week 6/auth_scanner.py` — the key=value authentication-log pipeline
  (`parse_log_line_safe`, `is_failed_login`, `analyze_log_file`,
  `detect_brute_force`, `generate_json_report`, `generate_text_report`).

Python strings are embedded as Lean `String`, processed through their
underlying character lists so that every function is structurally
recursive and kernel-evaluable.  Python dicts (insertion ordered, with
in-place overwrite) and `collections.Counter` objects are embedded as
insertion-ordered association lists.  An exception escaping a function
is embedded as the `Except.error` branch of an `Except` result.
-/

namespace CVNP

/-- Characters of `s` between positions, as a list.  Python `str.split()`
with no arguments: split on runs of whitespace, ignoring leading and
trailing whitespace.  Accumulator-based so recursion is structural. -/
def splitWsAux : List Char → List Char → List (List Char)
  | [], acc => if acc.isEmpty then [] else [acc.reverse]
  | c :: cs, acc =>
      if c.isWhitespace then
        if acc.isEmpty then splitWsAux cs [] else acc.reverse :: splitWsAux cs []
      else splitWsAux cs (c :: acc)

/-- Python `line.split()` (no separator argument). -/
def pysplit (s : String) : List String :=
  (splitWsAux s.data []).map String.mk

/-- Python `not line.strip()`: the line is empty or all whitespace. -/
def isBlank (s : String) : Bool :=
  s.data.all Char.isWhitespace

/-- Python `str.strip()` on a character list. -/
def stripChars (cs : List Char) : List Char :=
  ((cs.dropWhile Char.isWhitespace).reverse.dropWhile Char.isWhitespace).reverse

/-- Digits-to-value accumulator for `int()`. Returns `none` on the first
non-digit character. -/
def digitsValAux : List Char → Nat → Option Nat
  | [], acc => some acc
  | c :: cs, acc =>
      if c.isDigit then digitsValAux cs (acc * 10 + (c.toNat - 48)) else none

/-- Value of a nonempty all-digit character list, else `none`. -/
def digitsVal : List Char → Option Nat
  | [] => none
  | c :: cs => digitsValAux (c :: cs) 0

/-- Python `int(s)` on a decimal string literal: optional surrounding
whitespace, optional single sign, then one or more digits; any other
shape raises `ValueError`, embedded as `none`. -/
def pyInt (s : String) : Option Int :=
  match stripChars s.data with
  | '+' :: cs => (digitsVal cs).map Int.ofNat
  | '-' :: cs => (digitsVal cs).map (fun n => -(n : Int))
  | cs => (digitsVal cs).map Int.ofNat

/-- Python `pair.split("=", 1)` when `"=" in pair`: the text before the
first `=` and the text after it; `none` when the pair has no `=`. -/
def splitFirstEq : List Char → Option (List Char × List Char)
  | [] => none
  | c :: cs =>
      if c = '=' then some ([], cs)
      else (splitFirstEq cs).map (fun kv => (c :: kv.1, kv.2))

/-! ## Week 6: insertion-ordered dictionaries and counters -/

/-- Python `data[key] = value` on an insertion-ordered dict: overwrite in
place when the key exists, otherwise append. -/
def dictInsert : List (String × String) → String → String → List (String × String)
  | [], k, v => [(k, v)]
  | (k', v') :: rest, k, v =>
      if k' = k then (k', v) :: rest else (k', v') :: dictInsert rest k v

/-- Python `data.get(key)`: `some` of the stored value, else `none`. -/
def dictGet? : List (String × String) → String → Option String
  | [], _ => none
  | (k', v') :: rest, k => if k' = k then some v' else dictGet? rest k

/-- Python `counter[key] += 1` on a `collections.Counter`: bump the
stored count in place, or append the key with count 1. -/
def bump : List (String × Nat) → String → List (String × Nat)
  | [], k => [(k, 1)]
  | (k', c) :: rest, k =>
      if k' = k then (k', c + 1) :: rest else (k', c) :: bump rest k

/-- Python `counter[key]` read on a `collections.Counter`: the stored
count, or 0 for an absent key. -/
def lookupCount : List (String × Nat) → String → Nat
  | [], _ => 0
  | (k', c) :: rest, k => if k' = k then c else lookupCount rest k

/-! ## Week 6: `auth_scanner.py` -/

/-- `parse_log_line_safe` (Week 6/auth_scanner.py, lines 33-62):
strip the line; a blank line or a line with fewer than two
whitespace-delimited tokens yields `None`; otherwise the first two
tokens joined by a space form the timestamp, and each later token with
an `=` is split on its first `=` into a dict entry (tokens without `=`
are skipped with a warning).  The body can raise no exception, so the
`try`/`except` wrapper adds nothing to the embedding. -/
def parse_log_line_safe (line : String) : Option (List (String × String)) :=
  if isBlank line then none
  else
    let parts := pysplit line
    if parts.length < 2 then none
    else
      let timestamp := parts.getD 0 "" ++ " " ++ parts.getD 1 ""
      some ((parts.drop 2).foldl
        (fun d pair =>
          match splitFirstEq pair.data with
          | none => d
          | some kv => dictInsert d (String.mk kv.1) (String.mk kv.2))
        [("timestamp", timestamp)])

/-- `is_failed_login` (Week 6/auth_scanner.py, lines 69-73):
`data.get("event") == "LOGIN" and data.get("status") == "FAIL"`. -/
def is_failed_login (data : List (String × String)) : Bool :=
  dictGet? data "event" == some "LOGIN" && dictGet? data "status" == some "FAIL"

/-- The mutable state of `analyze_log_file` (Week 6/auth_scanner.py,
lines 80-108): two counters, a failed-login total and a malformed-line
count. -/
structure AnalysisState where
  failed_by_user : List (String × Nat)
  failed_by_ip : List (String × Nat)
  total_failed : Nat
  malformed_lines : Nat
deriving DecidableEq, Repr

/-- The loop body of `analyze_log_file`: parse the line; a `None` result
increments `malformed_lines`; a failed login increments `total_failed`
and bumps both counters, the user (resp. ip) counter at
`data.get("user", "UNKNOWN")` (resp. `data.get("ip", "UNKNOWN")`);
any other parsed line leaves the state unchanged. -/
def analyzeStep (s : AnalysisState) (line : String) : AnalysisState :=
  match parse_log_line_safe line with
  | none => { s with malformed_lines := s.malformed_lines + 1 }
  | some data =>
      if is_failed_login data then
        { s with
          total_failed := s.total_failed + 1
          failed_by_user := bump s.failed_by_user ((dictGet? data "user").getD "UNKNOWN")
          failed_by_ip := bump s.failed_by_ip ((dictGet? data "ip").getD "UNKNOWN") }
      else s

/-- `analyze_log_file` (Week 6/auth_scanner.py, lines 80-108) on the
lines of an already-opened stream (path resolution and the
file-not-found branch stay outside the embedding). -/
def analyze_log_file (lines : List String) : AnalysisState :=
  lines.foldl analyzeStep ⟨[], [], 0, 0⟩

/-- `detect_brute_force` (Week 6/auth_scanner.py, lines 115-120):
the entries of the counter whose count is at least the threshold. -/
def detect_brute_force (counter : List (String × Nat)) (threshold : Int) :
    List (String × Nat) :=
  counter.filter (fun kc => threshold ≤ (kc.2 : Int))

/-- The `summary` object of `generate_json_report`
(Week 6/auth_scanner.py, lines 127-143): exactly the two fields
`total_failed_logins` and `malformed_lines`. -/
def json_summary (results : AnalysisState) : List (String × Nat) :=
  [("total_failed_logins", results.total_failed),
   ("malformed_lines", results.malformed_lines)]

/-- `Counter.most_common()` with no argument: the counter's entries
sorted by descending count; the CPython sort is stable, so entries with
equal counts keep their counter (insertion) order.  Embedded as a
stable insertion sort: a new entry from the front of the list is placed
before the first already-sorted entry whose count is not larger. -/
def insertByCount (x : String × Nat) : List (String × Nat) → List (String × Nat)
  | [] => [x]
  | y :: ys => if x.2 < y.2 then y :: insertByCount x ys else x :: y :: ys

/-- `Counter.most_common()` over the whole counter. -/
def most_common (l : List (String × Nat)) : List (String × Nat) :=
  l.foldr insertByCount []

/-- The "Top Targeted Users" lines written by `generate_text_report`
(Week 6/auth_scanner.py, lines 155-175): one `  user: count` line per
`most_common()` entry of `failed_by_user`. -/
def text_report_user_lines (results : AnalysisState) : List String :=
  (most_common results.failed_by_user).map
    (fun kc => "  " ++ kc.1 ++ ": " ++ toString kc.2)

/-! ## Week 4: `log_analyzer.py` -/

/-- One parsed firewall log entry (Week 4/log_analyzer.py, lines 27-35). -/
structure Entry where
  date : String
  time : String
  action : String
  source_ip : String
  dest_ip : String
  port : Int
deriving DecidableEq, Repr

/-- `parse_log_file` (Week 4/log_analyzer.py, lines 19-39) on the lines
of the file: blank lines are skipped; a line with at least six
whitespace-delimited tokens becomes an `Entry` whose port is
`int(parts[5])` — when that conversion fails the uncaught `ValueError`
aborts the whole call, embedded as `Except.error`; a nonblank line with
fewer than six tokens is skipped silently. -/
def parse_log_file : List String → Except String (List Entry)
  | [] => Except.ok []
  | line :: rest =>
      if isBlank line then parse_log_file rest
      else
        let parts := pysplit line
        if 6 ≤ parts.length then
          match pyInt (parts.getD 5 "") with
          | none => Except.error "ValueError"
          | some p =>
              (parse_log_file rest).map
                (fun es =>
                  { date := parts.getD 0 "", time := parts.getD 1 "",
                    action := parts.getD 2 "", source_ip := parts.getD 3 "",
                    dest_ip := parts.getD 4 "", port := p } :: es)
        else parse_log_file rest

/-! ## Derived per-line views of the Week 6 loop body -/

/-- The line is counted malformed by `analyze_log_file`:
`parse_log_line_safe` returned `None`. -/
def lineMalformed (line : String) : Bool :=
  (parse_log_line_safe line).isNone

/-- The line parses and is a failed login. -/
def lineFail (line : String) : Bool :=
  match parse_log_line_safe line with
  | some d => is_failed_login d
  | none => false

/-- The user-counter key the line contributes to, when it is a failed
login. -/
def lineUserKey (line : String) : Option String :=
  match parse_log_line_safe line with
  | some d =>
      if is_failed_login d then some ((dictGet? d "user").getD "UNKNOWN") else none
  | none => none

/-- The ip-counter key the line contributes to, when it is a failed
login. -/
def lineIpKey (line : String) : Option String :=
  match parse_log_line_safe line with
  | some d =>
      if is_failed_login d then some ((dictGet? d "ip").getD "UNKNOWN") else none
  | none => none

/-- Sum of all stored counts of a counter. -/
def sumCounts (l : List (String × Nat)) : Nat :=
  (l.map Prod.snd).sum

/-- Well-formedness of a `Counter` embedding: keys are distinct and
every stored count is strictly positive. -/
def CounterOk (l : List (String × Nat)) : Prop :=
  (l.map Prod.fst).Nodup ∧ ∀ p ∈ l, 0 < p.2

/-! ## Helper lemmas -/

theorem lookupCount_bump (l : List (String × Nat)) (k k' : String) :
    lookupCount (bump l k) k' = lookupCount l k' + if k' = k then 1 else 0 := by
  induction l with
  | nil => simp [bump, lookupCount, eq_comm]
  | cons p rest ih =>
      obtain ⟨k₀, c₀⟩ := p
      by_cases h₀ : k₀ = k
      · subst h₀
        by_cases h' : k₀ = k'
        · subst h'; simp [bump, lookupCount]
        · have h'' : ¬ k' = k₀ := fun hh => h' hh.symm
          simp [bump, lookupCount, h', h'']
      · by_cases h' : k₀ = k'
        · subst h'
          simp [bump, lookupCount, h₀]
        · simp [bump, lookupCount, h₀, h', ih]

theorem sumCounts_bump (l : List (String × Nat)) (k : String) :
    sumCounts (bump l k) = sumCounts l + 1 := by
  induction l with
  | nil => simp [bump, sumCounts]
  | cons p rest ih =>
      obtain ⟨k₀, c₀⟩ := p
      by_cases h₀ : k₀ = k
      · simp [bump, h₀, sumCounts]
        omega
      · simp only [sumCounts] at ih ⊢
        simp [bump, h₀]
        omega

theorem bump_keys (l : List (String × Nat)) (k : String) :
    (bump l k).map Prod.fst =
      if k ∈ l.map Prod.fst then l.map Prod.fst else l.map Prod.fst ++ [k] := by
  induction l with
  | nil => simp [bump]
  | cons p rest ih =>
      obtain ⟨k₀, c₀⟩ := p
      by_cases h₀ : k₀ = k
      · subst h₀; simp [bump]
      · have h₀' : ¬ k = k₀ := fun hh => h₀ hh.symm
        by_cases hmem : k ∈ rest.map Prod.fst <;>
          simp [bump, h₀, h₀', hmem, ih]

theorem bump_pos (l : List (String × Nat)) (k : String)
    (hpos : ∀ p ∈ l, 0 < p.2) : ∀ p ∈ bump l k, 0 < p.2 := by
  induction l with
  | nil =>
      intro p hp
      simp [bump] at hp
      simp [hp]
  | cons q rest ih =>
      obtain ⟨k₀, c₀⟩ := q
      intro p hp
      by_cases h₀ : k₀ = k
      · simp [bump, h₀] at hp
        rcases hp with hp | hp
        · simp [hp]
        · exact hpos p (by simp [hp])
      · simp [bump, h₀] at hp
        rcases hp with hp | hp
        · have h0 := hpos (k₀, c₀) (by simp)
          simpa [hp] using h0
        · exact ih (fun q hq => hpos q (by simp [hq])) p hp

theorem counterOk_bump (l : List (String × Nat)) (k : String)
    (h : CounterOk l) : CounterOk (bump l k) := by
  obtain ⟨hnd, hpos⟩ := h
  refine ⟨?_, bump_pos l k hpos⟩
  rw [bump_keys]
  by_cases hmem : k ∈ l.map Prod.fst
  · simpa [hmem] using hnd
  · simp only [hmem, if_false]
    rw [List.nodup_append]
    exact ⟨hnd, List.nodup_singleton k,
      fun a ha hb => hmem ((List.mem_singleton.mp hb) ▸ ha)⟩

theorem mem_counter_iff : ∀ (l : List (String × Nat)), CounterOk l →
    ∀ (k : String) (c : Nat), ((k, c) ∈ l ↔ lookupCount l k = c ∧ 0 < c)
  | [], _, k, c => by
      simp [lookupCount]
      omega
  | (k₀, c₀) :: rest, h, k, c => by
      obtain ⟨hnd, hpos⟩ := h
      have hnd₂ := List.nodup_cons.mp (show (k₀ :: rest.map Prod.fst).Nodup from hnd)
      have hOk : CounterOk rest :=
        ⟨hnd₂.2, fun q hq => hpos q (List.mem_cons_of_mem _ hq)⟩
      have ih := mem_counter_iff rest hOk k c
      have hc₀ : 0 < c₀ := hpos (k₀, c₀) (by simp)
      by_cases h₀ : k₀ = k
      · subst h₀
        have hlk : lookupCount ((k₀, c₀) :: rest) k₀ = c₀ := by
          simp [lookupCount]
        rw [hlk]
        constructor
        · intro hm
          rcases List.mem_cons.mp hm with hp | hp
          · injection hp with _ h2
            exact ⟨h2.symm, by omega⟩
          · exact absurd (List.mem_map.mpr ⟨(k₀, c), hp, rfl⟩) hnd₂.1
        · rintro ⟨h1, _⟩
          subst h1
          exact List.mem_cons_self _ _
      · have hlk : lookupCount ((k₀, c₀) :: rest) k = lookupCount rest k := by
          simp [lookupCount, h₀]
        rw [hlk, ← ih]
        constructor
        · intro hm
          rcases List.mem_cons.mp hm with hp | hp
          · injection hp with h1 _
            exact absurd h1.symm h₀
          · exact hp
        · intro hm
          exact List.mem_cons_of_mem _ hm

theorem analyzeStep_malformed (s : AnalysisState) (line : String) :
    (analyzeStep s line).malformed_lines =
      s.malformed_lines + (if lineMalformed line then 1 else 0) := by
  cases h : parse_log_line_safe line with
  | none => simp [analyzeStep, lineMalformed, h]
  | some d =>
      by_cases hf : is_failed_login d <;>
        simp [analyzeStep, lineMalformed, h, hf]

theorem analyzeStep_total (s : AnalysisState) (line : String) :
    (analyzeStep s line).total_failed =
      s.total_failed + (if lineFail line then 1 else 0) := by
  cases h : parse_log_line_safe line with
  | none => simp [analyzeStep, lineFail, h]
  | some d =>
      by_cases hf : is_failed_login d <;>
        simp [analyzeStep, lineFail, h, hf]

theorem analyzeStep_user (s : AnalysisState) (line : String) (k : String) :
    lookupCount (analyzeStep s line).failed_by_user k =
      lookupCount s.failed_by_user k +
        (if lineUserKey line = some k then 1 else 0) := by
  cases h : parse_log_line_safe line with
  | none => simp [analyzeStep, lineUserKey, h]
  | some d =>
      by_cases hf : is_failed_login d
      · simp only [analyzeStep, h, hf, if_pos, lineUserKey]
        rw [lookupCount_bump]
        by_cases hk : k = (dictGet? d "user").getD "UNKNOWN"
        · simp [hk]
        · have hk' : ¬ (dictGet? d "user").getD "UNKNOWN" = k := fun hh => hk hh.symm
          simp [hk, hk']
      · simp [analyzeStep, lineUserKey, h, hf]

theorem analyzeStep_ip (s : AnalysisState) (line : String) (k : String) :
    lookupCount (analyzeStep s line).failed_by_ip k =
      lookupCount s.failed_by_ip k +
        (if lineIpKey line = some k then 1 else 0) := by
  cases h : parse_log_line_safe line with
  | none => simp [analyzeStep, lineIpKey, h]
  | some d =>
      by_cases hf : is_failed_login d
      · simp only [analyzeStep, h, hf, if_pos, lineIpKey]
        rw [lookupCount_bump]
        by_cases hk : k = (dictGet? d "ip").getD "UNKNOWN"
        · simp [hk]
        · have hk' : ¬ (dictGet? d "ip").getD "UNKNOWN" = k := fun hh => hk hh.symm
          simp [hk, hk']
      · simp [analyzeStep, lineIpKey, h, hf]

theorem foldl_malformed (lines : List String) (s : AnalysisState) :
    (lines.foldl analyzeStep s).malformed_lines =
      s.malformed_lines + lines.countP lineMalformed := by
  induction lines generalizing s with
  | nil => simp
  | cons ln rest ih =>
      rw [List.foldl_cons, ih, analyzeStep_malformed, List.countP_cons]
      by_cases hp : lineMalformed ln <;> simp [hp] <;> omega

theorem foldl_total (lines : List String) (s : AnalysisState) :
    (lines.foldl analyzeStep s).total_failed =
      s.total_failed + lines.countP lineFail := by
  induction lines generalizing s with
  | nil => simp
  | cons ln rest ih =>
      rw [List.foldl_cons, ih, analyzeStep_total, List.countP_cons]
      by_cases hp : lineFail ln <;> simp [hp] <;> omega

theorem foldl_user (lines : List String) (s : AnalysisState) (k : String) :
    lookupCount (lines.foldl analyzeStep s).failed_by_user k =
      lookupCount s.failed_by_user k +
        lines.countP (fun ln => lineUserKey ln == some k) := by
  induction lines generalizing s with
  | nil => simp
  | cons ln rest ih =>
      rw [List.foldl_cons, ih, analyzeStep_user, List.countP_cons]
      by_cases hp : lineUserKey ln = some k <;> simp [hp] <;> omega

theorem foldl_ip (lines : List String) (s : AnalysisState) (k : String) :
    lookupCount (lines.foldl analyzeStep s).failed_by_ip k =
      lookupCount s.failed_by_ip k +
        lines.countP (fun ln => lineIpKey ln == some k) := by
  induction lines generalizing s with
  | nil => simp
  | cons ln rest ih =>
      rw [List.foldl_cons, ih, analyzeStep_ip, List.countP_cons]
      by_cases hp : lineIpKey ln = some k <;> simp [hp] <;> omega

/-- The loop of `analyze_log_file` keeps both counters well formed. -/
theorem foldl_counterOk (lines : List String) (s : AnalysisState)
    (hu : CounterOk s.failed_by_user) (hi : CounterOk s.failed_by_ip) :
    CounterOk (lines.foldl analyzeStep s).failed_by_user ∧
      CounterOk (lines.foldl analyzeStep s).failed_by_ip := by
  induction lines generalizing s with
  | nil => exact ⟨hu, hi⟩
  | cons ln rest ih =>
      rw [List.foldl_cons]
      refine ih (analyzeStep s ln) ?_ ?_
      · cases h : parse_log_line_safe ln with
        | none => simpa [analyzeStep, h] using hu
        | some d =>
            by_cases hf : is_failed_login d <;>
              simp [analyzeStep, h, hf, counterOk_bump _ _ hu, hu]
      · cases h : parse_log_line_safe ln with
        | none => simpa [analyzeStep, h] using hi
        | some d =>
            by_cases hf : is_failed_login d <;>
              simp [analyzeStep, h, hf, counterOk_bump _ _ hi, hi]

/-- The loop of `analyze_log_file` keeps `total_failed` equal to the sum
of each counter. -/
theorem foldl_sums (lines : List String) (s : AnalysisState)
    (hu : s.total_failed = sumCounts s.failed_by_user)
    (hi : s.total_failed = sumCounts s.failed_by_ip) :
    (lines.foldl analyzeStep s).total_failed =
        sumCounts (lines.foldl analyzeStep s).failed_by_user ∧
      (lines.foldl analyzeStep s).total_failed =
        sumCounts (lines.foldl analyzeStep s).failed_by_ip := by
  induction lines generalizing s with
  | nil => exact ⟨hu, hi⟩
  | cons ln rest ih =>
      rw [List.foldl_cons]
      refine ih (analyzeStep s ln) ?_ ?_
      · cases h : parse_log_line_safe ln with
        | none => simpa [analyzeStep, h] using hu
        | some d =>
            by_cases hf : is_failed_login d <;>
              simp [analyzeStep, h, hf, sumCounts_bump, hu]
      · cases h : parse_log_line_safe ln with
        | none => simpa [analyzeStep, h] using hi
        | some d =>
            by_cases hf : is_failed_login d <;>
              simp [analyzeStep, h, hf, sumCounts_bump, hi]

/-! ## `most_common` as a stable descending sort -/

theorem insertByCount_perm (x : String × Nat) (l : List (String × Nat)) :
    (insertByCount x l).Perm (x :: l) := by
  induction l with
  | nil => simp [insertByCount]
  | cons y ys ih =>
      by_cases h : x.2 < y.2
      · simp only [insertByCount, if_pos h]
        exact (ih.cons y).trans (List.Perm.swap x y ys)
      · simp [insertByCount, h]

theorem most_common_perm (l : List (String × Nat)) :
    (most_common l).Perm l := by
  induction l with
  | nil => simp [most_common]
  | cons x xs ih =>
      simp only [most_common, List.foldr_cons]
      exact (insertByCount_perm x _).trans
        ((show (most_common xs).Perm xs from ih).cons x)

theorem insertByCount_sorted (x : String × Nat) (l : List (String × Nat))
    (h : List.Sorted (fun a b : String × Nat => b.2 ≤ a.2) l) :
    List.Sorted (fun a b : String × Nat => b.2 ≤ a.2) (insertByCount x l) := by
  induction l with
  | nil => simp [insertByCount]
  | cons y ys ih =>
      by_cases hlt : x.2 < y.2
      · simp only [insertByCount, if_pos hlt]
        rw [List.sorted_cons] at h ⊢
        refine ⟨?_, ih h.2⟩
        intro b hb
        rcases List.mem_cons.mp ((insertByCount_perm x ys).mem_iff.mp hb) with hb | hb
        · subst hb; omega
        · exact h.1 b hb
      · simp only [insertByCount, if_neg hlt]
        rw [List.sorted_cons] at h ⊢
        refine ⟨?_, List.sorted_cons.mpr h⟩
        intro b hb
        rcases List.mem_cons.mp hb with hb | hb
        · subst hb; omega
        · have := h.1 b hb
          omega

theorem most_common_sorted (l : List (String × Nat)) :
    List.Sorted (fun a b : String × Nat => b.2 ≤ a.2) (most_common l) := by
  induction l with
  | nil => simp [most_common]
  | cons x xs ih =>
      simpa only [most_common, List.foldr_cons] using insertByCount_sorted x _ ih

theorem insertByCount_filter (x : String × Nat) (l : List (String × Nat))
    (c : Nat) :
    (insertByCount x l).filter (fun p => p.2 == c) =
      (x :: l).filter (fun p => p.2 == c) := by
  induction l with
  | nil => simp [insertByCount]
  | cons y ys ih =>
      by_cases hlt : x.2 < y.2
      · simp only [insertByCount, if_pos hlt]
        by_cases hy : y.2 = c
        · have hx : ¬ x.2 = c := by omega
          simp [List.filter_cons, hy, hx] at ih ⊢
          simpa [hx] using ih
        · simp [List.filter_cons, hy] at ih ⊢
          exact ih
      · simp [insertByCount, hlt]

/-- The ranked entries of `most_common` restricted to one count value
keep the counter's insertion order: the sort is stable. -/
theorem most_common_filter (l : List (String × Nat)) (c : Nat) :
    (most_common l).filter (fun p => p.2 == c) =
      l.filter (fun p => p.2 == c) := by
  induction l with
  | nil => simp [most_common]
  | cons x xs ih =>
      simp only [most_common, List.foldr_cons] at ih ⊢
      rw [insertByCount_filter]
      by_cases hx : x.2 = c <;>
        simp [List.filter_cons, hx, ih]

theorem mem_detect_brute_force (counter : List (String × Nat)) (t : Int)
    (k : String) (c : Nat) :
    (k, c) ∈ detect_brute_force counter t ↔ (k, c) ∈ counter ∧ t ≤ (c : Int) := by
  simp [detect_brute_force, List.mem_filter]

theorem splitWsAux_nil_of_all_ws (cs : List Char)
    (h : cs.all Char.isWhitespace = true) : splitWsAux cs [] = [] := by
  induction cs with
  | nil => simp [splitWsAux]
  | cons c cs ih =>
      simp only [List.all_cons, Bool.and_eq_true] at h
      simp [splitWsAux, h.1, ih h.2]

theorem pysplit_eq_nil_of_blank (s : String) (h : isBlank s = true) :
    pysplit s = [] := by
  unfold isBlank at h
  simp [pysplit, splitWsAux_nil_of_all_ws s.data h]

/-! ## Claims -/

/-- C1 (counterexample): a positional line with six tokens whose sixth
token `abc` is not integer-parseable makes `parse_log_file` raise an
uncaught `ValueError`, aborting the whole parse — the following valid
line is NOT processed, whereas running on the valid line alone
succeeds.  So such a line is not "rejected as malformed with processing
of subsequent lines continuing". -/
theorem C1_counterexample :
    parse_log_file ["2024-01-01 10:00 DENY 1.2.3.4 5.6.7.8 abc",
        "2024-01-01 10:01 ALLOW 1.1.1.1 2.2.2.2 80"] = Except.error "ValueError"
    ∧ parse_log_file ["2024-01-01 10:01 ALLOW 1.1.1.1 2.2.2.2 80"] =
        Except.ok [{ date := "2024-01-01", time := "10:01", action := "ALLOW",
                     source_ip := "1.1.1.1", dest_ip := "2.2.2.2", port := 80 }] :=
  ⟨rfl, rfl⟩

/-- C1 (amended): a positional-grammar line with at least six
whitespace-delimited tokens whose sixth token is not integer-parseable
makes `parse_log_file` raise an unrecoverable `ValueError` that aborts
the entire parse; the subsequent lines are not processed (they cannot
influence the aborted result). -/
theorem C1_amended_bad_port_aborts (line : String) (rest : List String)
    (h6 : 6 ≤ (pysplit line).length)
    (hbad : pyInt ((pysplit line).getD 5 "") = none) :
    parse_log_file (line :: rest) = Except.error "ValueError" := by
  have hnb : isBlank line = false := by
    cases hb : isBlank line with
    | false => rfl
    | true =>
        rw [pysplit_eq_nil_of_blank line hb] at h6
        simp at h6
  have hbad' : pyInt ((pysplit line)[5]?.getD "") = none := by
    simpa [List.getD] using hbad
  simp [parse_log_file, hnb, h6, hbad']

/-- C1 (witness for the amended theorem). -/
theorem C1_witness :
    6 ≤ (pysplit "2024-01-01 10:00 DENY 1.2.3.4 5.6.7.8 abc").length
    ∧ pyInt ((pysplit "2024-01-01 10:00 DENY 1.2.3.4 5.6.7.8 abc").getD 5 "") = none
    ∧ parse_log_file ["2024-01-01 10:00 DENY 1.2.3.4 5.6.7.8 abc",
        "2024-01-01 10:01 ALLOW 1.1.1.1 2.2.2.2 80"] = Except.error "ValueError" :=
  ⟨by decide, by decide,
    C1_amended_bad_port_aborts _ _ (by decide) (by decide)⟩

/-- C2 (counterexample): appending one blank line to a stream changes
the final `malformed_lines` total of `analyze_log_file` from 0 to 1, so
blank lines are counted as malformed, not skipped silently. -/
theorem C2_counterexample :
    (analyze_log_file ["2025-01-01 00:00 event=LOGIN status=FAIL user=alice",
        ""]).malformed_lines = 1
    ∧ (analyze_log_file
        ["2025-01-01 00:00 event=LOGIN status=FAIL user=alice"]).malformed_lines
        = 0 :=
  ⟨rfl, rfl⟩

/-- C2 (amended): a blank or whitespace-only line yields no Event
(`parse_log_line_safe` returns `None`); in the Week 4 firewall parser it
is skipped with no effect, but in the Week 6 authentication pipeline
each blank line increments `malformed_lines` by one. -/
theorem C2_amended_blank_counted (line : String) (h : isBlank line = true) :
    parse_log_line_safe line = none
    ∧ (∀ s : AnalysisState, analyzeStep s line =
        { s with malformed_lines := s.malformed_lines + 1 })
    ∧ (∀ rest : List String, parse_log_file (line :: rest) = parse_log_file rest) := by
  have hp : parse_log_line_safe line = none := by
    simp [parse_log_line_safe, h]
  exact ⟨hp, fun s => by simp [analyzeStep, hp],
    fun rest => by simp [parse_log_file, h]⟩

/-- C2 (witness for the amended theorem). -/
theorem C2_witness :
    isBlank "   " = true
    ∧ (parse_log_line_safe "   " = none
      ∧ (∀ s : AnalysisState, analyzeStep s "   " =
          { s with malformed_lines := s.malformed_lines + 1 })
      ∧ (∀ rest : List String, parse_log_file ("   " :: rest) = parse_log_file rest)) :=
  ⟨by decide, C2_amended_blank_counted "   " (by decide)⟩

/-- C3 (counterexample): the top-level `summary` of the Week 6 JSON
report has no processed-entries total and no `time_range` field — its
keys are exactly `total_failed_logins` and `malformed_lines`. -/
theorem C3_counterexample :
    "total_entries" ∉ (json_summary (analyze_log_file [])).map Prod.fst
    ∧ "time_range" ∉ (json_summary (analyze_log_file [])).map Prod.fst := by
  decide

/-- C3 (amended): for every run, the structured report's summary
distinguishes the failed-login total from the malformed-line count as
two distinct fields, but it contains neither a processed-entries total
(`total_entries`) nor a `time_range`: its keys are exactly
`total_failed_logins` and `malformed_lines`. -/
theorem C3_amended_summary_fields (r : AnalysisState) :
    (json_summary r).map Prod.fst = ["total_failed_logins", "malformed_lines"]
    ∧ List.lookup "total_failed_logins" (json_summary r) = some r.total_failed
    ∧ List.lookup "malformed_lines" (json_summary r) = some r.malformed_lines := by
  refine ⟨rfl, ?_, ?_⟩ <;> simp [json_summary, List.lookup]

/-- C4: `detect_brute_force` returns exactly the counter entries whose
count is at least the threshold, each key paired with its stored count;
a key with count equal to the threshold is included, one with count
threshold − 1 is not, and no key absent from the counter appears. -/
theorem C4_detect_brute_force_iff (counter : List (String × Nat)) (t : Int)
    (k : String) (c : Nat) :
    (k, c) ∈ detect_brute_force counter t ↔ (k, c) ∈ counter ∧ t ≤ (c : Int) := by
  simp [detect_brute_force, List.mem_filter]

/-- C5 (counterexample): two users with equal counts appear in the text
report in counter insertion order (`bob` then `alice`), not in
ascending key order, although `alice` precedes `bob` alphabetically. -/
theorem C5_counterexample :
    text_report_user_lines (analyze_log_file
        ["t1 t2 event=LOGIN status=FAIL user=bob",
         "t1 t2 event=LOGIN status=FAIL user=alice"]) =
      ["  bob: 1", "  alice: 1"]
    ∧ text_report_user_lines (analyze_log_file
        ["t1 t2 event=LOGIN status=FAIL user=bob",
         "t1 t2 event=LOGIN status=FAIL user=alice"]) ≠
      ["  alice: 1", "  bob: 1"] :=
  ⟨rfl, by decide⟩

/-- C5 (amended): the textual report lists each metric's entries sorted
by descending count, but ties between equal counts keep the counter's
insertion (first-encounter) order — `Counter.most_common()` is a stable
descending sort — rather than ascending key order: the output is a
permutation of the counter, its counts are descending, and its
restriction to any fixed count value equals the counter's own
restriction. -/
theorem C5_amended_stable_desc_sort (r : AnalysisState) :
    text_report_user_lines r =
      (most_common r.failed_by_user).map
        (fun kc => "  " ++ kc.1 ++ ": " ++ toString kc.2)
    ∧ (most_common r.failed_by_user).Perm r.failed_by_user
    ∧ List.Sorted (fun a b : String × Nat => b.2 ≤ a.2) (most_common r.failed_by_user)
    ∧ ∀ c, (most_common r.failed_by_user).filter (fun p => p.2 == c) =
        r.failed_by_user.filter (fun p => p.2 == c) :=
  ⟨rfl, most_common_perm _, most_common_sorted _, fun c => most_common_filter _ c⟩

/-- C6: the classifier marks an event as a failed login exactly when its
`event` field is the string `LOGIN` and its `status` field is the
string `FAIL`, by case-sensitive comparison; a parsed event failing the
test (for instance a lowercase variant or a missing field) is not
dropped as malformed — the analysis state is left unchanged. -/
theorem C6_classifier_exact (data : List (String × String)) (s : AnalysisState)
    (line : String) :
    (is_failed_login data = true ↔
      (dictGet? data "event" = some "LOGIN" ∧ dictGet? data "status" = some "FAIL"))
    ∧ (parse_log_line_safe line = some data → is_failed_login data = false →
        analyzeStep s line = s) := by
  constructor
  · simp [is_failed_login]
  · intro hp hf
    simp [analyzeStep, hp, hf]

/-- C6 (witness): a lowercase `event=login` is not a failed login and
leaves the analysis state unchanged. -/
theorem C6_witness :
    is_failed_login [("timestamp", "t1 t2"), ("event", "login"),
        ("status", "FAIL")] = false
    ∧ parse_log_line_safe "t1 t2 event=login status=FAIL" =
        some [("timestamp", "t1 t2"), ("event", "login"), ("status", "FAIL")]
    ∧ analyzeStep ⟨[], [], 0, 0⟩ "t1 t2 event=login status=FAIL" = ⟨[], [], 0, 0⟩ :=
  ⟨rfl, rfl,
    (C6_classifier_exact [("timestamp", "t1 t2"), ("event", "login"),
        ("status", "FAIL")] ⟨[], [], 0, 0⟩ "t1 t2 event=login status=FAIL").2 rfl rfl⟩

/-- C7 (counterexample): five literal lines
`LOGIN FAIL user=alice ip=10.0.0.5` never flag alice: the first two
tokens are consumed as the timestamp and the line carries no
`event`/`status` fields, so it is not a failed login — the flagged set
at threshold 5 is empty and `total_failed` is 0. -/
theorem C7_counterexample :
    detect_brute_force (analyze_log_file
        (List.replicate 5 "LOGIN FAIL user=alice ip=10.0.0.5")).failed_by_user 5 = []
    ∧ (analyze_log_file
        (List.replicate 5 "LOGIN FAIL user=alice ip=10.0.0.5")).total_failed = 0 :=
  ⟨rfl, rfl⟩

/-- C7 (amended): Scenario A holds for lines in the key=value grammar
with an explicit timestamp: five lines
`2025-01-01 00:00:00 event=LOGIN status=FAIL user=alice ip=10.0.0.5`
with threshold 5 flag alice with count 5, and four such lines leave the
flagged set empty; the literal line `LOGIN FAIL user=alice ip=10.0.0.5`
of the claim parses with `LOGIN FAIL` as the timestamp, is not a failed
login, and never flags alice. -/
theorem C7_amended_scenarioA :
    detect_brute_force (analyze_log_file (List.replicate 5
        "2025-01-01 00:00:00 event=LOGIN status=FAIL user=alice ip=10.0.0.5")).failed_by_user
        5 = [("alice", 5)]
    ∧ detect_brute_force (analyze_log_file (List.replicate 4
        "2025-01-01 00:00:00 event=LOGIN status=FAIL user=alice ip=10.0.0.5")).failed_by_user
        5 = [] :=
  ⟨rfl, rfl⟩

/-- C8: analyzing any permutation of an input stream yields the same
failed-login total, the same malformed-line count, pointwise equal
per-key counts in both counters, and the same flagged sets at every
threshold. -/
theorem C8_order_independence (l₁ l₂ : List String) (hperm : l₁.Perm l₂) :
    ((analyze_log_file l₁).total_failed = (analyze_log_file l₂).total_failed)
    ∧ ((analyze_log_file l₁).malformed_lines = (analyze_log_file l₂).malformed_lines)
    ∧ (∀ k, lookupCount (analyze_log_file l₁).failed_by_user k =
        lookupCount (analyze_log_file l₂).failed_by_user k)
    ∧ (∀ k, lookupCount (analyze_log_file l₁).failed_by_ip k =
        lookupCount (analyze_log_file l₂).failed_by_ip k)
    ∧ (∀ (t : Int) (k : String) (c : Nat),
        (k, c) ∈ detect_brute_force (analyze_log_file l₁).failed_by_user t ↔
          (k, c) ∈ detect_brute_force (analyze_log_file l₂).failed_by_user t)
    ∧ (∀ (t : Int) (k : String) (c : Nat),
        (k, c) ∈ detect_brute_force (analyze_log_file l₁).failed_by_ip t ↔
          (k, c) ∈ detect_brute_force (analyze_log_file l₂).failed_by_ip t) := by
  have hOkInit : CounterOk ([] : List (String × Nat)) := ⟨by simp, by simp⟩
  have hok₁ : CounterOk (analyze_log_file l₁).failed_by_user ∧
      CounterOk (analyze_log_file l₁).failed_by_ip :=
    foldl_counterOk l₁ ⟨[], [], 0, 0⟩ hOkInit hOkInit
  have hok₂ : CounterOk (analyze_log_file l₂).failed_by_user ∧
      CounterOk (analyze_log_file l₂).failed_by_ip :=
    foldl_counterOk l₂ ⟨[], [], 0, 0⟩ hOkInit hOkInit
  have huser : ∀ k, lookupCount (analyze_log_file l₁).failed_by_user k =
      lookupCount (analyze_log_file l₂).failed_by_user k := by
    intro k
    simp only [analyze_log_file]
    rw [foldl_user, foldl_user, hperm.countP_eq]
  have hip : ∀ k, lookupCount (analyze_log_file l₁).failed_by_ip k =
      lookupCount (analyze_log_file l₂).failed_by_ip k := by
    intro k
    simp only [analyze_log_file]
    rw [foldl_ip, foldl_ip, hperm.countP_eq]
  refine ⟨?_, ?_, huser, hip, ?_, ?_⟩
  · simp only [analyze_log_file]
    rw [foldl_total, foldl_total, hperm.countP_eq]
  · simp only [analyze_log_file]
    rw [foldl_malformed, foldl_malformed, hperm.countP_eq]
  · intro t k c
    rw [mem_detect_brute_force, mem_detect_brute_force,
      mem_counter_iff _ hok₁.1, mem_counter_iff _ hok₂.1, huser k]
  · intro t k c
    rw [mem_detect_brute_force, mem_detect_brute_force,
      mem_counter_iff _ hok₁.2, mem_counter_iff _ hok₂.2, hip k]

/-- C8 (witness): swapping two concrete lines leaves the failed-login
total unchanged. -/
theorem C8_witness :
    (["t1 t2 event=LOGIN status=FAIL user=alice", "junk"] : List String).Perm
        ["junk", "t1 t2 event=LOGIN status=FAIL user=alice"]
    ∧ (analyze_log_file ["t1 t2 event=LOGIN status=FAIL user=alice", "junk"]).total_failed
        = (analyze_log_file
            ["junk", "t1 t2 event=LOGIN status=FAIL user=alice"]).total_failed :=
  ⟨List.Perm.swap _ _ _,
    (C8_order_independence _ _ (List.Perm.swap _ _ _)).1⟩

/-- C9: a parsed failed login lacking a `user` (resp. `ip`) field is
not dropped: `analyze_log_file`'s loop body still increments
`total_failed` and bumps the corresponding counter under the literal
key `UNKNOWN`. -/
theorem C9_unknown_key (s : AnalysisState) (line : String)
    (data : List (String × String))
    (hp : parse_log_line_safe line = some data)
    (hf : is_failed_login data = true) :
    (dictGet? data "user" = none →
      analyzeStep s line =
        { s with
          total_failed := s.total_failed + 1
          failed_by_user := bump s.failed_by_user "UNKNOWN"
          failed_by_ip := bump s.failed_by_ip ((dictGet? data "ip").getD "UNKNOWN") })
    ∧ (dictGet? data "ip" = none →
      analyzeStep s line =
        { s with
          total_failed := s.total_failed + 1
          failed_by_user := bump s.failed_by_user ((dictGet? data "user").getD "UNKNOWN")
          failed_by_ip := bump s.failed_by_ip "UNKNOWN" }) := by
  constructor
  · intro hu
    simp [analyzeStep, hp, hf, hu]
  · intro hi
    simp [analyzeStep, hp, hf, hi]

/-- C9 (witness): a failed login with no `user=` pair is counted under
user key `UNKNOWN` and still increments `total_failed`. -/
theorem C9_witness :
    parse_log_line_safe "2025-01-01 00:00 event=LOGIN status=FAIL ip=1.2.3.4" =
        some [("timestamp", "2025-01-01 00:00"), ("event", "LOGIN"),
              ("status", "FAIL"), ("ip", "1.2.3.4")]
    ∧ is_failed_login [("timestamp", "2025-01-01 00:00"), ("event", "LOGIN"),
          ("status", "FAIL"), ("ip", "1.2.3.4")] = true
    ∧ dictGet? [("timestamp", "2025-01-01 00:00"), ("event", "LOGIN"),
          ("status", "FAIL"), ("ip", "1.2.3.4")] "user" = none
    ∧ analyzeStep ⟨[], [], 0, 0⟩ "2025-01-01 00:00 event=LOGIN status=FAIL ip=1.2.3.4" =
        ⟨[("UNKNOWN", 1)], [("1.2.3.4", 1)], 1, 0⟩ :=
  ⟨rfl, rfl, rfl,
    ((C9_unknown_key ⟨[], [], 0, 0⟩
        "2025-01-01 00:00 event=LOGIN status=FAIL ip=1.2.3.4"
        [("timestamp", "2025-01-01 00:00"), ("event", "LOGIN"),
         ("status", "FAIL"), ("ip", "1.2.3.4")] rfl rfl).1 rfl).trans (by decide)⟩

/-- C10: after processing any stream, `total_failed` equals the sum of
the counts stored in `failed_by_user` and also the sum of those in
`failed_by_ip`, and every stored count is strictly positive. -/
theorem C10_aggregate_invariant (lines : List String) :
    ((analyze_log_file lines).total_failed =
        sumCounts (analyze_log_file lines).failed_by_user)
    ∧ ((analyze_log_file lines).total_failed =
        sumCounts (analyze_log_file lines).failed_by_ip)
    ∧ (∀ p ∈ (analyze_log_file lines).failed_by_user, 0 < p.2)
    ∧ (∀ p ∈ (analyze_log_file lines).failed_by_ip, 0 < p.2) := by
  have hOkInit : CounterOk ([] : List (String × Nat)) := ⟨by simp, by simp⟩
  have hs := foldl_sums lines ⟨[], [], 0, 0⟩ rfl rfl
  have hok := foldl_counterOk lines ⟨[], [], 0, 0⟩ hOkInit hOkInit
  exact ⟨hs.1, hs.2, hok.1.2, hok.2.2⟩

/-- C10 (witness): the invariant at a concrete two-line stream. -/
theorem C10_witness :
    (analyze_log_file ["t1 t2 event=LOGIN status=FAIL user=u1", "junk"]).total_failed =
      sumCounts (analyze_log_file
        ["t1 t2 event=LOGIN status=FAIL user=u1", "junk"]).failed_by_user :=
  (C10_aggregate_invariant ["t1 t2 event=LOGIN status=FAIL user=u1", "junk"]).1

end CVNP
